import Mathlib

/-!
Verification of the detection-to-overlay pipeline of the car-ar-scanner
repository.  The definitions below are a shallow embedding of the revision
in src/unnamed/part_000 (the full-featured revision, with placement mode
and floor-level estimation); numeric values are modelled as rationals.
-/

namespace CarAR

/-- Axis-aligned rectangle, used both for the raw bbox of a detection
(frame-pixel space) and for CarPosition (display space), mirroring the
bbox tuple and the CarPosition interface of the source. -/
structure Rect where
  x : ℚ
  y : ℚ
  width : ℚ
  height : ℚ
deriving Repr, DecidableEq

/-- One detector result, mirroring the Detection interface of the source
(bbox, class, score).  The class field is called label here because class
is a reserved word in Lean. -/
structure Detection where
  bbox : Rect
  label : String
  score : ℚ
deriving Repr, DecidableEq

/-- The vehicle allow-list of the filter in detect
(src/unnamed/part_000, line 235). -/
def vehicleClasses : List String := ["car", "truck", "bus", "motorcycle"]

/-- The confidence threshold literal 0.35 used by the filter in detect
(src/unnamed/part_000, line 235). -/
def minConfidence : ℚ := 35 / 100

/-- The per-prediction filter of detect: the class must be in the
allow-list and the score strictly above the threshold
(the source condition is p.score > 0.35). -/
def isQualifying (minConf : ℚ) (p : Detection) : Bool :=
  vehicleClasses.contains p.label && decide (minConf < p.score)

/-- predictions.filter of detect (src/unnamed/part_000, lines 234-236). -/
def filterVehicles (minConf : ℚ) (ps : List Detection) : List Detection :=
  ps.filter (isQualifying minConf)

/-- The coordinate transform of detect (src/unnamed/part_000, lines
244-252): scaleX = innerWidth / canvas.width, scaleY = innerHeight /
canvas.height, each bbox component multiplied by the scale of its axis. -/
def overlayPosition (b : Rect) (frameW frameH displayW displayH : ℚ) : Rect :=
  let scaleX := displayW / frameW
  let scaleY := displayH / frameH
  { x := b.x * scaleX
    y := b.y * scaleY
    width := b.width * scaleX
    height := b.height * scaleY }

/-- The enlargement factor of ThreeDCar (src/unnamed/part_000, line 843):
const scale = 2.5. -/
def overlayScale : ℚ := 5 / 2

/-- displaySize of ThreeDCar (src/unnamed/part_000, lines 844-849): the
box grown by overlayScale about its centre. -/
def displaySizeOf (position : Rect) : Rect :=
  { width := position.width * overlayScale
    height := position.height * overlayScale
    x := position.x - (position.width * (overlayScale - 1)) / 2
    y := position.y - (position.height * (overlayScale - 1)) / 2 }

/-- A user-placed car, mirroring the PlacedCar interface of the source. -/
structure PlacedCar where
  id : Nat
  x : ℚ
  y : ℚ
  rotation : ℚ
  scale : ℚ
  color : Nat
deriving Repr, DecidableEq

/-- The component state of Home that the claims are about: the mode flags,
the retained Detection and CarPosition, the floor level, the placed cars
and the fatal error message (src/unnamed/part_000, lines 33-48). -/
structure AppState where
  isScanning : Bool
  arMode : Bool
  placementMode : Bool
  showFloorGrid : Bool
  detectedCar : Option Detection
  carPosition : Option Rect
  floorLevel : ℚ
  placedCars : List PlacedCar
  error : Option String
deriving Repr, DecidableEq

/-- The initial state of the component: every flag false, nothing
detected, floorLevel 0.7 (src/unnamed/part_000, lines 36-48). -/
def initialState : AppState :=
  { isScanning := false
    arMode := false
    placementMode := false
    showFloorGrid := false
    detectedCar := none
    carPosition := none
    floorLevel := 7 / 10
    placedCars := []
    error := none }

/-- The three modes of the spec state machine.  In the source they are
encoded by the two flags isScanning and arMode. -/
inductive Mode where
  | idle
  | scanning
  | locked
deriving Repr, DecidableEq

/-- Decoding of the flag pair into the spec mode: arMode means Locked,
otherwise isScanning means Scanning, otherwise Idle. -/
def AppState.mode (s : AppState) : Mode :=
  if s.arMode then Mode.locked
  else if s.isScanning then Mode.scanning
  else Mode.idle

/-- The floor-level clamp of detect (src/unnamed/part_000, line 264):
Math.min(0.9, Math.max(0.5, carBottom)). -/
def clampFloor (carBottom : ℚ) : ℚ := min (9 / 10) (max (1 / 2) carBottom)

/-- Outcome of one invocation of detect: the next component state,
whether requestAnimationFrame was called to schedule the next cycle, and
the console log entries of the cycle. -/
structure CycleResult where
  state : AppState
  rescheduled : Bool
  log : List String
deriving Repr, DecidableEq

/-- One invocation of detect (src/unnamed/part_000, lines 216-322).
running is the liveness flag checked at entry and at the scheduling site;
ready stands for video.readyState being 4; predictions is the settled
outcome of the awaited model.detect call.  On entry with running false
the function returns without scheduling; when the frame is not ready it
reschedules without work; a rejected detector call is caught and logged;
otherwise the first filtered vehicle (if any) updates detectedCar,
carPosition and floorLevel, and with no vehicle the state is cleared only
in scanning mode. -/
def detectCycle (s : AppState) (running ready : Bool)
    (frameW frameH displayW displayH : ℚ)
    (predictions : Except String (List Detection)) : CycleResult :=
  if !running then { state := s, rescheduled := false, log := [] }
  else if !ready then { state := s, rescheduled := true, log := [] }
  else
    match predictions with
    | Except.error e => { state := s, rescheduled := true, log := ["Detection error: " ++ e] }
    | Except.ok preds =>
      match filterVehicles minConfidence preds with
      | car :: _ =>
        let newPosition := overlayPosition car.bbox frameW frameH displayW displayH
        let carBottom := (car.bbox.y + car.bbox.height) / frameH
        { state := { s with
            detectedCar := some car
            carPosition := some newPosition
            floorLevel := clampFloor carBottom }
          rescheduled := true
          log := [] }
      | [] =>
        if s.isScanning && !s.arMode then
          { state := { s with detectedCar := none, carPosition := none }
            rescheduled := true
            log := [] }
        else { state := s, rescheduled := true, log := [] }

/-- The scan button handler handleScan (src/unnamed/part_000, lines
333-351): start scanning from idle (clearing the retained detection and
position), lock into AR when a car is detected, otherwise stop. -/
def handleScan (s : AppState) : AppState :=
  if !s.isScanning then
    { s with
      isScanning := true
      arMode := false
      placementMode := false
      showFloorGrid := false
      detectedCar := none
      carPosition := none }
  else if s.detectedCar.isSome then
    { s with isScanning := false, arMode := true, showFloorGrid := true }
  else
    { s with isScanning := false }

/-- exitAR (src/unnamed/part_000, lines 353-359): leave AR and clear the
retained detection and position. -/
def exitAR (s : AppState) : AppState :=
  { s with
    arMode := false
    placementMode := false
    showFloorGrid := false
    detectedCar := none
    carPosition := none }

/-- togglePlacementMode (src/unnamed/part_000, lines 361-364). -/
def togglePlacementMode (s : AppState) : AppState :=
  { s with placementMode := !s.placementMode, showFloorGrid := true }

/-- The six-colour palette of handleScreenTap (src/unnamed/part_000,
line 381). -/
def palette : List Nat :=
  [0xe74c3c, 0x3498db, 0xf39c12, 0x9b59b6, 0x00b894, 0x6c5ce7]

/-- handleScreenTap (src/unnamed/part_000, lines 367-386): outside
placement mode the tap is ignored; otherwise, when the tap is below the
floor line (clientY > innerHeight * floorLevel * 0.8) a new PlacedCar is
appended at the tap position with rotation 0, scale 1 and a palette
colour indexed by the random draw (Math.floor(Math.random() * 6) is
modelled by the oracle rand, reduced mod 6). -/
def handleScreenTap (s : AppState) (clientX clientY displayH : ℚ)
    (newId rand : Nat) : AppState :=
  if !s.placementMode then s
  else if decide (displayH * s.floorLevel * (8 / 10) < clientY) then
    { s with placedCars := s.placedCars ++
        [{ id := newId, x := clientX, y := clientY, rotation := 0, scale := 1,
           color := palette.getD (rand % 6) 0 }] }
  else s

/-- clearPlacedCars (src/unnamed/part_000, lines 388-390). -/
def clearPlacedCars (s : AppState) : AppState := { s with placedCars := [] }

/-- removeCar (src/unnamed/part_000, lines 392-394). -/
def removeCar (s : AppState) (id : Nat) : AppState :=
  { s with placedCars := s.placedCars.filter (fun c => c.id != id) }

/-- One atomic mutation of the component state: a user action handler or
one invocation of the detection loop.  These are exactly the writers of
the state variables in src/unnamed/part_000. -/
inductive Step : AppState → AppState → Prop where
  | scan (s : AppState) : Step s (handleScan s)
  | exitArButton (s : AppState) : Step s (exitAR s)
  | togglePlacement (s : AppState) : Step s (togglePlacementMode s)
  | tap (s : AppState) (cx cy dh : ℚ) (newId rand : Nat) :
      Step s (handleScreenTap s cx cy dh newId rand)
  | cycle (s : AppState) (running ready : Bool) (fw fh dw dh : ℚ)
      (preds : Except String (List Detection)) :
      Step s (detectCycle s running ready fw fh dw dh preds).state
  | clearCars (s : AppState) : Step s (clearPlacedCars s)
  | removeOne (s : AppState) (id : Nat) : Step s (removeCar s id)

/-- States reachable from the initial component state by user actions and
detection cycles. -/
inductive Reachable : AppState → Prop where
  | start : Reachable initialState
  | next (s t : AppState) : Reachable s → Step s t → Reachable t

/-- Events of the detection loop, for the scheduling-order model: issue k
is the start of the detector call of cycle k (the model.detect
invocation), settle k its resolution or rejection (the await completing,
normally or into the catch block), and schedule k the
requestAnimationFrame registration of cycle k. -/
inductive DetEvent where
  | issue : Nat → DetEvent
  | settle : Nat → DetEvent
  | schedule : Nat → DetEvent
deriving Repr, DecidableEq

/-- The event order inside one invocation of detect
(src/unnamed/part_000, lines 216-322): the awaited detector call is
issued and settles, and only then does the closing
requestAnimationFrame(detect) schedule the next invocation.  The single
scheduling site after the await is what serialises the loop. -/
def cycleEvents (k : Nat) : List DetEvent :=
  [DetEvent.issue k, DetEvent.settle k, DetEvent.schedule (k + 1)]

/-- The event order of n consecutive cycles of the detection loop: a
scheduled invocation runs strictly after the invocation that scheduled
it, so the events of cycle k precede those of cycle k+1. -/
def loopEvents : Nat → List DetEvent
  | 0 => []
  | n + 1 => loopEvents n ++ cycleEvents n

end CarAR

namespace CarAR

theorem overlayPosition_def (b : Rect) (fw fh dw dh : ℚ) :
    overlayPosition b fw fh dw dh =
      { x := b.x * (dw / fw), y := b.y * (dh / fh),
        width := b.width * (dw / fw), height := b.height * (dh / fh) } := rfl

/-- Claim C1: for every detection box and frame size with nonzero
dimensions, the published overlay position is the box scaled
independently per axis: each coordinate and extent is multiplied by the
display over frame ratio of its own axis. -/
theorem overlayPosition_scales_each_axis (b : Rect) (frameW frameH displayW displayH : ℚ)
    (hw : frameW ≠ 0) (hh : frameH ≠ 0) :
    overlayPosition b frameW frameH displayW displayH =
      { x := b.x * displayW / frameW
        y := b.y * displayH / frameH
        width := b.width * displayW / frameW
        height := b.height * displayH / frameH } := by
  simp [overlayPosition, Rect.mk.injEq, mul_div_assoc]

/-- Witness for claim C1, at the example of the spec: box (100,50,200,100)
in a 640 by 480 frame shown on a 1280 by 960 display maps to
(200,100,400,200). -/
theorem overlayPosition_scales_each_axis_witness :
    (640 : ℚ) ≠ 0 ∧ (480 : ℚ) ≠ 0 ∧
    overlayPosition { x := 100, y := 50, width := 200, height := 100 } 640 480 1280 960 =
      { x := 100 * 1280 / 640, y := 50 * 960 / 480,
        width := 200 * 1280 / 640, height := 100 * 960 / 480 } ∧
    overlayPosition { x := 100, y := 50, width := 200, height := 100 } 640 480 1280 960 =
      { x := 200, y := 100, width := 400, height := 200 } :=
  ⟨by norm_num, by norm_num,
   overlayPosition_scales_each_axis
     { x := 100, y := 50, width := 200, height := 100 } 640 480 1280 960
     (by norm_num) (by norm_num),
   by simp only [overlayPosition, Rect.mk.injEq]; norm_num⟩

theorem filter_head?_eq_find? (p : Detection → Bool) (l : List Detection) :
    (l.filter p).head? = l.find? p := by
  induction l with
  | nil => rfl
  | cons a t ih => by_cases h : p a <;> simp [List.filter_cons, List.find?_cons, h, ih]

/-- Claim C3: whenever some detector result passes the vehicle and
confidence filter, the selected detection (and the overlay position
derived from it) is the first qualifying element in the native result
order, not the qualifying element of highest confidence. -/
theorem detect_selects_first_qualifying (s : AppState) (fw fh dw dh : ℚ)
    (preds : List Detection) (hne : filterVehicles minConfidence preds ≠ []) :
    (detectCycle s true true fw fh dw dh (Except.ok preds)).state.detectedCar =
      preds.find? (isQualifying minConfidence) ∧
    (detectCycle s true true fw fh dw dh (Except.ok preds)).state.carPosition =
      (preds.find? (isQualifying minConfidence)).map
        (fun car => overlayPosition car.bbox fw fh dw dh) := by
  rcases hv : filterVehicles minConfidence preds with _ | ⟨car, rest⟩
  · exact absurd hv hne
  · have hfind : preds.find? (isQualifying minConfidence) = some car := by
      rw [← filter_head?_eq_find?]
      have : preds.filter (isQualifying minConfidence) = car :: rest := hv
      rw [this]
      rfl
    simp [detectCycle, hv, hfind]

/-- Witness for claim C3, at the example of the spec: detector output
person 0.9, car 0.4, truck 0.6 with threshold 0.35 selects car 0.4,
the first qualifying entry, not truck 0.6 of higher confidence. -/
theorem detect_selects_first_qualifying_witness :
    filterVehicles minConfidence
        [{ bbox := { x := 0, y := 0, width := 1, height := 1 }, label := "person", score := 9 / 10 },
         { bbox := { x := 1, y := 2, width := 3, height := 4 }, label := "car", score := 4 / 10 },
         { bbox := { x := 5, y := 6, width := 7, height := 8 }, label := "truck", score := 6 / 10 }] ≠ [] ∧
    ((detectCycle initialState true true 640 480 1280 960 (Except.ok
        [{ bbox := { x := 0, y := 0, width := 1, height := 1 }, label := "person", score := 9 / 10 },
         { bbox := { x := 1, y := 2, width := 3, height := 4 }, label := "car", score := 4 / 10 },
         { bbox := { x := 5, y := 6, width := 7, height := 8 }, label := "truck", score := 6 / 10 }])).state.detectedCar =
      List.find? (isQualifying minConfidence)
        [{ bbox := { x := 0, y := 0, width := 1, height := 1 }, label := "person", score := 9 / 10 },
         { bbox := { x := 1, y := 2, width := 3, height := 4 }, label := "car", score := 4 / 10 },
         { bbox := { x := 5, y := 6, width := 7, height := 8 }, label := "truck", score := 6 / 10 }] ∧
     (detectCycle initialState true true 640 480 1280 960 (Except.ok
        [{ bbox := { x := 0, y := 0, width := 1, height := 1 }, label := "person", score := 9 / 10 },
         { bbox := { x := 1, y := 2, width := 3, height := 4 }, label := "car", score := 4 / 10 },
         { bbox := { x := 5, y := 6, width := 7, height := 8 }, label := "truck", score := 6 / 10 }])).state.carPosition =
      (List.find? (isQualifying minConfidence)
        [{ bbox := { x := 0, y := 0, width := 1, height := 1 }, label := "person", score := 9 / 10 },
         { bbox := { x := 1, y := 2, width := 3, height := 4 }, label := "car", score := 4 / 10 },
         { bbox := { x := 5, y := 6, width := 7, height := 8 }, label := "truck", score := 6 / 10 }]).map
        (fun car => overlayPosition car.bbox 640 480 1280 960)) ∧
    List.find? (isQualifying minConfidence)
        [{ bbox := { x := 0, y := 0, width := 1, height := 1 }, label := "person", score := 9 / 10 },
         { bbox := { x := 1, y := 2, width := 3, height := 4 }, label := "car", score := 4 / 10 },
         { bbox := { x := 5, y := 6, width := 7, height := 8 }, label := "truck", score := 6 / 10 }] =
      some { bbox := { x := 1, y := 2, width := 3, height := 4 }, label := "car", score := 4 / 10 } :=
  ⟨by norm_num [filterVehicles, List.filter_cons, isQualifying, vehicleClasses, minConfidence]
      decide,
   detect_selects_first_qualifying initialState 640 480 1280 960 _
     (by norm_num [filterVehicles, List.filter_cons, isQualifying, vehicleClasses, minConfidence]
         decide),
   by norm_num [List.find?_cons, isQualifying, vehicleClasses, minConfidence]
      rfl⟩

/-- Claim C8 counterexample: a detection labelled car whose confidence is
exactly the threshold 0.35 does not pass the filter, because the source
condition is p.score > 0.35, strict. -/
theorem threshold_equal_counterexample :
    isQualifying minConfidence
      { bbox := { x := 0, y := 0, width := 10, height := 10 }, label := "car", score := 35 / 100 } = false ∧
    filterVehicles minConfidence
      [{ bbox := { x := 0, y := 0, width := 10, height := 10 }, label := "car", score := 35 / 100 }] = [] := by
  constructor <;>
    norm_num [isQualifying, filterVehicles, List.filter_cons, vehicleClasses, minConfidence]

/-- Claim C8 (amended): a detector result qualifies the per-cycle filter
iff its label is in the allow-list and its confidence is strictly above
the configured threshold; a confidence exactly equal to the threshold
never qualifies. -/
theorem isQualifying_strictly_above (minConf : ℚ) (p : Detection) :
    (isQualifying minConf p = true ↔ p.label ∈ vehicleClasses ∧ minConf < p.score) ∧
    (p.score = minConf → isQualifying minConf p = false) := by
  constructor
  · simp [isQualifying]
  · intro h
    simp [isQualifying, h]

/-- Witness for claim C8 (amended), at the boundary input: a car at
confidence exactly 0.35 against threshold 0.35. -/
theorem isQualifying_strictly_above_witness :
    ((isQualifying minConfidence
        { bbox := { x := 0, y := 0, width := 10, height := 10 }, label := "car", score := 35 / 100 } = true ↔
      ({ bbox := { x := 0, y := 0, width := 10, height := 10 }, label := "car", score := 35 / 100 } : Detection).label ∈ vehicleClasses ∧
        minConfidence < ({ bbox := { x := 0, y := 0, width := 10, height := 10 }, label := "car", score := 35 / 100 } : Detection).score) ∧
     (({ bbox := { x := 0, y := 0, width := 10, height := 10 }, label := "car", score := 35 / 100 } : Detection).score = minConfidence →
        isQualifying minConfidence
          { bbox := { x := 0, y := 0, width := 10, height := 10 }, label := "car", score := 35 / 100 } = false)) :=
  isQualifying_strictly_above minConfidence
    { bbox := { x := 0, y := 0, width := 10, height := 10 }, label := "car", score := 35 / 100 }

theorem mode_idle_iff (s : AppState) :
    s.mode = Mode.idle ↔ (s.arMode = false ∧ s.isScanning = false) := by
  cases h1 : s.arMode <;> cases h2 : s.isScanning <;> simp [AppState.mode, h1, h2]

theorem mode_scanning_iff (s : AppState) :
    s.mode = Mode.scanning ↔ (s.arMode = false ∧ s.isScanning = true) := by
  cases h1 : s.arMode <;> cases h2 : s.isScanning <;> simp [AppState.mode, h1, h2]

theorem mode_locked_iff (s : AppState) :
    s.mode = Mode.locked ↔ s.arMode = true := by
  cases h1 : s.arMode <;> cases h2 : s.isScanning <;> simp [AppState.mode, h1, h2]

/-- Claim C4: in a cycle where no detection passes the filter, scanning
mode clears both the detection and the overlay position, while locked
mode leaves both unchanged, retaining the last known values. -/
theorem detect_no_match_policy (s : AppState) (fw fh dw dh : ℚ)
    (preds : List Detection) (hempty : filterVehicles minConfidence preds = []) :
    (s.mode = Mode.scanning →
      (detectCycle s true true fw fh dw dh (Except.ok preds)).state.detectedCar = none ∧
      (detectCycle s true true fw fh dw dh (Except.ok preds)).state.carPosition = none) ∧
    (s.mode = Mode.locked →
      (detectCycle s true true fw fh dw dh (Except.ok preds)).state.detectedCar = s.detectedCar ∧
      (detectCycle s true true fw fh dw dh (Except.ok preds)).state.carPosition = s.carPosition) := by
  constructor
  · intro hm
    rcases (mode_scanning_iff s).mp hm with ⟨ha, hs⟩
    simp [detectCycle, hempty, ha, hs]
  · intro hm
    have ha := (mode_locked_iff s).mp hm
    simp [detectCycle, hempty, ha]

/-- Witness for claim C4: an empty prediction list in a scanning state
and in a locked state holding a previous detection. -/
theorem detect_no_match_policy_witness :
    (filterVehicles minConfidence [] = [] ∧
     (({ initialState with isScanning := true } : AppState).mode = Mode.scanning →
       (detectCycle { initialState with isScanning := true } true true 640 480 1280 960
          (Except.ok [])).state.detectedCar = none ∧
       (detectCycle { initialState with isScanning := true } true true 640 480 1280 960
          (Except.ok [])).state.carPosition = none) ∧
     (({ initialState with isScanning := true } : AppState).mode = Mode.locked →
       (detectCycle { initialState with isScanning := true } true true 640 480 1280 960
          (Except.ok [])).state.detectedCar =
         ({ initialState with isScanning := true } : AppState).detectedCar ∧
       (detectCycle { initialState with isScanning := true } true true 640 480 1280 960
          (Except.ok [])).state.carPosition =
         ({ initialState with isScanning := true } : AppState).carPosition)) ∧
    (filterVehicles minConfidence [] = [] ∧
     (({ initialState with arMode := true } : AppState).mode = Mode.scanning →
       (detectCycle { initialState with arMode := true } true true 640 480 1280 960
          (Except.ok [])).state.detectedCar = none ∧
       (detectCycle { initialState with arMode := true } true true 640 480 1280 960
          (Except.ok [])).state.carPosition = none) ∧
     (({ initialState with arMode := true } : AppState).mode = Mode.locked →
       (detectCycle { initialState with arMode := true } true true 640 480 1280 960
          (Except.ok [])).state.detectedCar =
         ({ initialState with arMode := true } : AppState).detectedCar ∧
       (detectCycle { initialState with arMode := true } true true 640 480 1280 960
          (Except.ok [])).state.carPosition =
         ({ initialState with arMode := true } : AppState).carPosition)) :=
  ⟨⟨rfl, detect_no_match_policy { initialState with isScanning := true } 640 480 1280 960 [] rfl⟩,
   ⟨rfl, detect_no_match_policy { initialState with arMode := true } 640 480 1280 960 [] rfl⟩⟩

/-- Claim C6: a rejected detector call in a cycle is caught and logged,
leaves the detection, overlay position and fatal-error state unchanged,
and the next cycle is still scheduled. -/
theorem detect_error_recovered (s : AppState) (fw fh dw dh : ℚ) (e : String) :
    (detectCycle s true true fw fh dw dh (Except.error e)).state = s ∧
    (detectCycle s true true fw fh dw dh (Except.error e)).state.detectedCar = s.detectedCar ∧
    (detectCycle s true true fw fh dw dh (Except.error e)).state.carPosition = s.carPosition ∧
    (detectCycle s true true fw fh dw dh (Except.error e)).state.error = s.error ∧
    (detectCycle s true true fw fh dw dh (Except.error e)).rescheduled = true ∧
    (detectCycle s true true fw fh dw dh (Except.error e)).log = ["Detection error: " ++ e] :=
  ⟨rfl, rfl, rfl, rfl, rfl, rfl⟩

/-- Claim C7: with the enlargement factor 2.5 of ThreeDCar, the display
rectangle has size (w times k, h times k), origin
(x - w(k-1)/2, y - h(k-1)/2), and the same centre as the original
rectangle. -/
theorem displaySize_centered_enlargement (p : Rect) :
    (displaySizeOf p).width = p.width * (5 / 2) ∧
    (displaySizeOf p).height = p.height * (5 / 2) ∧
    (displaySizeOf p).x = p.x - p.width * ((5 / 2) - 1) / 2 ∧
    (displaySizeOf p).y = p.y - p.height * ((5 / 2) - 1) / 2 ∧
    (displaySizeOf p).x + (displaySizeOf p).width / 2 = p.x + p.width / 2 ∧
    (displaySizeOf p).y + (displaySizeOf p).height / 2 = p.y + p.height / 2 := by
  refine ⟨rfl, rfl, rfl, rfl, ?_, ?_⟩ <;>
    simp only [displaySizeOf, overlayScale] <;> ring

theorem detectCycle_flags (s : AppState) (running ready : Bool) (fw fh dw dh : ℚ)
    (preds : Except String (List Detection)) :
    (detectCycle s running ready fw fh dw dh preds).state.isScanning = s.isScanning ∧
    (detectCycle s running ready fw fh dw dh preds).state.arMode = s.arMode ∧
    (detectCycle s running ready fw fh dw dh preds).state.placementMode = s.placementMode ∧
    (detectCycle s running ready fw fh dw dh preds).state.placedCars = s.placedCars ∧
    (detectCycle s running ready fw fh dw dh preds).state.error = s.error := by
  cases running
  · simp [detectCycle]
  · cases ready
    · simp [detectCycle]
    · rcases preds with e | preds
      · simp [detectCycle]
      · rcases hv : filterVehicles minConfidence preds with _ | ⟨car, rest⟩
        · by_cases h : (s.isScanning && !s.arMode) = true <;> simp [detectCycle, hv, h]
        · simp [detectCycle, hv]

theorem detectCycle_floorLevel (s : AppState) (running ready : Bool) (fw fh dw dh : ℚ)
    (preds : Except String (List Detection)) :
    (detectCycle s running ready fw fh dw dh preds).state.floorLevel = s.floorLevel ∨
    ∃ x, (detectCycle s running ready fw fh dw dh preds).state.floorLevel = clampFloor x := by
  cases running
  · left; simp [detectCycle]
  · cases ready
    · left; simp [detectCycle]
    · rcases preds with e | preds
      · left; simp [detectCycle]
      · rcases hv : filterVehicles minConfidence preds with _ | ⟨car, rest⟩
        · left
          by_cases h : (s.isScanning && !s.arMode) = true <;> simp [detectCycle, hv, h]
        · right
          exact ⟨(car.bbox.y + car.bbox.height) / fh, by simp [detectCycle, hv]⟩

theorem reachable_flags_exclusive {s : AppState} (h : Reachable s) :
    ¬(s.isScanning = true ∧ s.arMode = true) := by
  induction h with
  | start => simp [initialState]
  | next u t hr hstep ih =>
      cases hstep with
      | scan =>
          by_cases h1 : u.isScanning = true
          · by_cases h2 : u.detectedCar.isSome = true <;> simp [handleScan, h1, h2]
          · simp [handleScan, h1]
      | exitArButton => simp [exitAR]
      | togglePlacement => simpa [togglePlacementMode] using ih
      | tap cx cy dh newId rand =>
          unfold handleScreenTap
          split_ifs <;> simpa using ih
      | cycle running ready fw fh dw dh preds =>
          have hf := detectCycle_flags u running ready fw fh dw dh preds
          rw [hf.1, hf.2.1]
          exact ih
      | clearCars => simpa [clearPlacedCars] using ih
      | removeOne id => simpa [removeCar] using ih

/-- Claim C2: the mode state machine follows the transition table.  From
Idle, the scan button starts scanning and clears the retained detection
and overlay position; from Scanning, the same button locks into AR when a
detection exists (keeping detection and position) and returns to Idle
when none exists; from Locked, the exit button always returns to Idle and
clears both. -/
theorem mode_state_machine (s : AppState) (hr : Reachable s) :
    (s.mode = Mode.idle →
      (handleScan s).mode = Mode.scanning ∧
      (handleScan s).detectedCar = none ∧ (handleScan s).carPosition = none) ∧
    (s.mode = Mode.scanning →
      (s.detectedCar.isSome = true →
        (handleScan s).mode = Mode.locked ∧
        (handleScan s).detectedCar = s.detectedCar ∧
        (handleScan s).carPosition = s.carPosition) ∧
      (s.detectedCar = none → (handleScan s).mode = Mode.idle)) ∧
    (s.mode = Mode.locked →
      (exitAR s).mode = Mode.idle ∧
      (exitAR s).detectedCar = none ∧ (exitAR s).carPosition = none) := by
  refine ⟨?_, ?_, ?_⟩
  · intro hm
    rcases (mode_idle_iff s).mp hm with ⟨ha, hs⟩
    refine ⟨?_, ?_, ?_⟩ <;> simp [handleScan, hs, AppState.mode]
  · intro hm
    rcases (mode_scanning_iff s).mp hm with ⟨ha, hs⟩
    constructor
    · intro hd
      refine ⟨?_, ?_, ?_⟩ <;> simp [handleScan, hs, hd, AppState.mode]
    · intro hd
      simp [handleScan, hs, hd, AppState.mode, ha]
  · intro hm
    have ha := (mode_locked_iff s).mp hm
    have hexc := reachable_flags_exclusive hr
    have hs : s.isScanning = false := by
      cases h : s.isScanning
      · rfl
      · exact absurd ⟨h, ha⟩ hexc
    refine ⟨?_, rfl, rfl⟩
    simp [exitAR, AppState.mode, hs]

/-- Witness for claim C2, at the initial (idle) state. -/
theorem mode_state_machine_witness :
    (initialState.mode = Mode.idle →
      (handleScan initialState).mode = Mode.scanning ∧
      (handleScan initialState).detectedCar = none ∧
      (handleScan initialState).carPosition = none) ∧
    (initialState.mode = Mode.scanning →
      (initialState.detectedCar.isSome = true →
        (handleScan initialState).mode = Mode.locked ∧
        (handleScan initialState).detectedCar = initialState.detectedCar ∧
        (handleScan initialState).carPosition = initialState.carPosition) ∧
      (initialState.detectedCar = none → (handleScan initialState).mode = Mode.idle)) ∧
    (initialState.mode = Mode.locked →
      (exitAR initialState).mode = Mode.idle ∧
      (exitAR initialState).detectedCar = none ∧
      (exitAR initialState).carPosition = none) :=
  mode_state_machine initialState Reachable.start

theorem clampFloor_bounds (x : ℚ) :
    1 / 2 ≤ clampFloor x ∧ clampFloor x ≤ 9 / 10 := by
  unfold clampFloor
  exact ⟨le_min (by norm_num) (le_max_left _ _), min_le_left _ _⟩

/-- Claim C10: in every reachable state the floor-level fraction lies in
the closed band from 0.5 to 0.9: it starts at 0.7 and every update stores
min(0.9, max(0.5, carBottom)). -/
theorem floorLevel_in_band (s : AppState) (hr : Reachable s) :
    1 / 2 ≤ s.floorLevel ∧ s.floorLevel ≤ 9 / 10 := by
  induction hr with
  | start => constructor <;> norm_num [initialState]
  | next u t hr hstep ih =>
      cases hstep with
      | scan =>
          unfold handleScan
          split_ifs <;> simpa using ih
      | exitArButton => simpa [exitAR] using ih
      | togglePlacement => simpa [togglePlacementMode] using ih
      | tap cx cy dh newId rand =>
          unfold handleScreenTap
          split_ifs <;> simpa using ih
      | cycle running ready fw fh dw dh preds =>
          rcases detectCycle_floorLevel u running ready fw fh dw dh preds with h | ⟨x, h⟩
          · rw [h]; exact ih
          · rw [h]; exact clampFloor_bounds x
      | clearCars => simpa [clearPlacedCars] using ih
      | removeOne id => simpa [removeCar] using ih

/-- Witness for claim C10, at the initial state with floor level 0.7. -/
theorem floorLevel_in_band_witness :
    1 / 2 ≤ initialState.floorLevel ∧ initialState.floorLevel ≤ 9 / 10 :=
  floorLevel_in_band initialState Reachable.start

theorem palette_getD_mem (rand : Nat) : palette.getD (rand % 6) 0 ∈ palette := by
  have h : rand % 6 < palette.length := by
    have h6 : rand % 6 < 6 := Nat.mod_lt _ (by norm_num)
    simpa [palette] using h6
  rw [List.getD_eq_getElem palette 0 h]
  exact List.getElem_mem h

/-- Claim C9: in placement mode a tap appends exactly one new placed car
at the tap coordinate, with rotation 0, scale 1 and a colour from the
six-colour palette, if and only if the tap is below the floor line
(clientY greater than the threshold fraction of the display height);
otherwise nothing changes.  Previously placed cars are untouched either
way. -/
theorem tap_places_iff_below_line (s : AppState) (cx cy dh : ℚ) (newId rand : Nat)
    (hp : s.placementMode = true) :
    (dh * s.floorLevel * (8 / 10) < cy →
      handleScreenTap s cx cy dh newId rand =
        { s with placedCars := s.placedCars ++
            [{ id := newId, x := cx, y := cy, rotation := 0, scale := 1,
               color := palette.getD (rand % 6) 0 }] } ∧
      palette.getD (rand % 6) 0 ∈ palette) ∧
    (¬ dh * s.floorLevel * (8 / 10) < cy →
      handleScreenTap s cx cy dh newId rand = s) := by
  constructor
  · intro hlt
    exact ⟨by simp [handleScreenTap, hp, hlt], palette_getD_mem rand⟩
  · intro hge
    simp [handleScreenTap, hp, hge]

/-- Witness for claim C9: in a placement-mode state with floor level 0.7
on a display of height 800, a tap at height 600 is below the floor line
(threshold 448) and places one car there. -/
theorem tap_places_iff_below_line_witness :
    ({ initialState with placementMode := true } : AppState).placementMode = true ∧
    (800 : ℚ) * ({ initialState with placementMode := true } : AppState).floorLevel * (8 / 10) < 600 ∧
    (((800 : ℚ) * ({ initialState with placementMode := true } : AppState).floorLevel * (8 / 10) < 600 →
      handleScreenTap { initialState with placementMode := true } 100 600 800 1 0 =
        { ({ initialState with placementMode := true } : AppState) with
            placedCars := ({ initialState with placementMode := true } : AppState).placedCars ++
              [{ id := 1, x := 100, y := 600, rotation := 0, scale := 1,
                 color := palette.getD (0 % 6) 0 }] } ∧
      palette.getD (0 % 6) 0 ∈ palette) ∧
    (¬ (800 : ℚ) * ({ initialState with placementMode := true } : AppState).floorLevel * (8 / 10) < 600 →
      handleScreenTap { initialState with placementMode := true } 100 600 800 1 0 =
        { initialState with placementMode := true })) :=
  ⟨rfl, by norm_num [initialState],
   tap_places_iff_below_line { initialState with placementMode := true } 100 600 800 1 0 rfl⟩

theorem loopEvents_length (n : Nat) : (loopEvents n).length = 3 * n := by
  induction n with
  | zero => rfl
  | succ n ih =>
      simp [loopEvents, cycleEvents, ih]
      ring

theorem loopEvents_get_issue (n : Nat) :
    ∀ j, j < n → (loopEvents n)[3 * j]? = some (DetEvent.issue j) := by
  induction n with
  | zero => intro j hj; omega
  | succ n ih =>
      intro j hj
      rw [loopEvents]
      rcases Nat.lt_or_ge j n with hlt | hge
      · have hidx : 3 * j < (loopEvents n).length := by
          rw [loopEvents_length]; omega
        rw [List.getElem?_append_left hidx]
        exact ih j hlt
      · have hj' : j = n := by omega
        subst hj'
        have hidx : (loopEvents j).length ≤ 3 * j := by rw [loopEvents_length]
        rw [List.getElem?_append_right hidx, loopEvents_length]
        simp [cycleEvents]

theorem loopEvents_get_settle (n : Nat) :
    ∀ k, k < n → (loopEvents n)[3 * k + 1]? = some (DetEvent.settle k) := by
  induction n with
  | zero => intro k hk; omega
  | succ n ih =>
      intro k hk
      rw [loopEvents]
      rcases Nat.lt_or_ge k n with hlt | hge
      · have hidx : 3 * k + 1 < (loopEvents n).length := by
          rw [loopEvents_length]; omega
        rw [List.getElem?_append_left hidx]
        exact ih k hlt
      · have hk' : k = n := by omega
        subst hk'
        have hidx : (loopEvents k).length ≤ 3 * k + 1 := by rw [loopEvents_length]; omega
        rw [List.getElem?_append_right hidx, loopEvents_length]
        have h1 : 3 * k + 1 - 3 * k = 1 := by omega
        rw [h1]
        simp [cycleEvents]

theorem loopEvents_issue_unique (n j : Nat) :
    ∀ p, (loopEvents n)[p]? = some (DetEvent.issue j) → p = 3 * j := by
  induction n with
  | zero => intro p h; simp [loopEvents] at h
  | succ n ih =>
      intro p h
      rw [loopEvents] at h
      rcases Nat.lt_or_ge p (loopEvents n).length with hp | hp
      · rw [List.getElem?_append_left hp] at h
        exact ih p h
      · rw [List.getElem?_append_right hp] at h
        have hl := loopEvents_length n
        rcases hq : p - (loopEvents n).length with _ | _ | _ | q
        · rw [hq] at h
          simp [cycleEvents] at h
          omega
        · rw [hq] at h
          simp [cycleEvents] at h
        · rw [hq] at h
          simp [cycleEvents] at h
        · rw [hq] at h
          simp [cycleEvents] at h

theorem loopEvents_settle_unique (n k : Nat) :
    ∀ p, (loopEvents n)[p]? = some (DetEvent.settle k) → p = 3 * k + 1 := by
  induction n with
  | zero => intro p h; simp [loopEvents] at h
  | succ n ih =>
      intro p h
      rw [loopEvents] at h
      rcases Nat.lt_or_ge p (loopEvents n).length with hp | hp
      · rw [List.getElem?_append_left hp] at h
        exact ih p h
      · rw [List.getElem?_append_right hp] at h
        have hl := loopEvents_length n
        rcases hq : p - (loopEvents n).length with _ | _ | _ | q
        · rw [hq] at h
          simp [cycleEvents] at h
        · rw [hq] at h
          simp [cycleEvents] at h
          omega
        · rw [hq] at h
          simp [cycleEvents] at h
        · rw [hq] at h
          simp [cycleEvents] at h

/-- Claim C5: the detection loop is serialised.  In the event order of
the loop, for any two cycles k before j, the settlement of the detector
call of cycle k occurs at a strictly earlier position than the issuing of
the detector call of cycle j, and those are the only positions where the
two events occur: cycle j is issued only after cycle k has resolved or
rejected. -/
theorem serialized_detector_calls (n k j : Nat) (hk : k < n) (hj : j < n) (hkj : k < j) :
    (loopEvents n)[3 * k + 1]? = some (DetEvent.settle k) ∧
    (loopEvents n)[3 * j]? = some (DetEvent.issue j) ∧
    (∀ p, (loopEvents n)[p]? = some (DetEvent.settle k) → p = 3 * k + 1) ∧
    (∀ p, (loopEvents n)[p]? = some (DetEvent.issue j) → p = 3 * j) ∧
    3 * k + 1 < 3 * j :=
  ⟨loopEvents_get_settle n k hk, loopEvents_get_issue n j hj,
   loopEvents_settle_unique n k, loopEvents_issue_unique n j, by omega⟩

/-- Witness for claim C5: in a two-cycle run, the detector call of cycle
one is issued only after the call of cycle zero has settled. -/
theorem serialized_detector_calls_witness :
    (0 : Nat) < 2 ∧ (1 : Nat) < 2 ∧ (0 : Nat) < 1 ∧
    ((loopEvents 2)[3 * 0 + 1]? = some (DetEvent.settle 0) ∧
     (loopEvents 2)[3 * 1]? = some (DetEvent.issue 1) ∧
     (∀ p, (loopEvents 2)[p]? = some (DetEvent.settle 0) → p = 3 * 0 + 1) ∧
     (∀ p, (loopEvents 2)[p]? = some (DetEvent.issue 1) → p = 3 * 1) ∧
     3 * 0 + 1 < 3 * 1) :=
  ⟨by decide, by decide, by decide,
   serialized_detector_calls 2 0 1 (by decide) (by decide) (by decide)⟩

end CarAR
